import Mathlib

/-!
Shallow embedding of `src/spm/SentencePieceInterop.cpp`: a thin C-ABI shim
over an external SentencePiece engine.  The engine itself is out of scope
for the repository (it is an opaque dynamic library), so it is modelled as
an abstract behaviour record `EngineBehavior` exactly matching the interface
the shim calls: `Load` returning a status, `SetVocabulary` returning a
status, `EncodeAsIds`, `IsUnknown` and `IdToPiece`.  The shim code itself
(constructor, the two methods, and the four exported `extern "C"` entry
points) is translated faithfully, with C++ exceptions modelled as
`Except String` and the `try`/`catch` wrappers as total functions mapping
errors to the sentinel values of the source.
-/

set_option autoImplicit false

/-- A UTF-16 string: a list of 16-bit code units. -/
abbrev UTF16Str := List Nat

/-- A UTF-8 string: a list of bytes. -/
abbrev UTF8Str := List Nat

/-- The engine status type (`sentencepiece::util::Status`): for the shim only
its `ok()` predicate matters. -/
structure Status where
  ok : Bool
deriving Repr, DecidableEq

/-- Decode a UTF-16 code-unit sequence to Unicode code points, combining
surrogate pairs; lone surrogates become U+FFFD.
Modelled from the spec: the encoding converter of `unicode_conversions.h`
(header not in `src/`), which "transforms text at the boundary between a
wide (UTF-16) representation and the required UTF-8". -/
def utf16ToCodepoints : List Nat → List Nat
  | [] => []
  | [u] =>
    if 0xD800 ≤ u ∧ u ≤ 0xDFFF then [0xFFFD] else [u]
  | u :: v :: rest =>
    if 0xD800 ≤ u ∧ u ≤ 0xDBFF then
      if 0xDC00 ≤ v ∧ v ≤ 0xDFFF then
        (0x10000 + (u - 0xD800) * 0x400 + (v - 0xDC00)) :: utf16ToCodepoints rest
      else
        0xFFFD :: utf16ToCodepoints (v :: rest)
    else if 0xDC00 ≤ u ∧ u ≤ 0xDFFF then
      0xFFFD :: utf16ToCodepoints (v :: rest)
    else
      u :: utf16ToCodepoints (v :: rest)

/-- Encode one Unicode code point as UTF-8 bytes. -/
def utf8EncodeCp (cp : Nat) : List Nat :=
  if cp < 0x80 then [cp]
  else if cp < 0x800 then [0xC0 + cp / 64, 0x80 + cp % 64]
  else if cp < 0x10000 then
    [0xE0 + cp / 4096, 0x80 + cp / 64 % 64, 0x80 + cp % 64]
  else
    [0xF0 + cp / 262144, 0x80 + cp / 4096 % 64, 0x80 + cp / 64 % 64, 0x80 + cp % 64]

/-- Modelled from the spec: `utf16_to_utf8` of the missing
`unicode_conversions.h` — converts boundary UTF-16 text into the UTF-8 the
engine requires. -/
def utf16_to_utf8 (s : UTF16Str) : UTF8Str :=
  (utf16ToCodepoints s).foldr (fun cp acc => utf8EncodeCp cp ++ acc) []

/-- Modelled from the spec: `count_utf8_to_utf16` of the missing
`unicode_conversions.h` — the number of UTF-16 code units needed to
represent the UTF-8 text (one unit per non-continuation byte, one extra
unit for each 4-byte sequence, which encodes a supplementary-plane code
point taking a surrogate pair). -/
def count_utf8_to_utf16 (s : UTF8Str) : Nat :=
  s.foldl (fun n c => if c &&& 0xC0 == 0x80 then n else if 0xF0 ≤ c then n + 2 else n + 1) 0

/-- The C cast `(int)` applied to an unsigned value (`size_t`), modelled as
twos-complement wrap-around into the 32-bit signed range. -/
def int32OfNat (n : Nat) : Int :=
  if n % 2 ^ 32 < 2 ^ 31 then ((n % 2 ^ 32 : Nat) : Int)
  else ((n % 2 ^ 32 : Nat) : Int) - 2 ^ 32

/-- The external tokenizer engine, as the black box the shim calls into:
`load(path) -> status`, `setVocabulary(list) -> status`,
`encode(text) -> list of piece ids`, `isUnknown(id) -> bool`,
`idToPiece(id) -> text`.  `encode` also receives the restricted-vocabulary
state the processor currently carries, since `SetVocabulary` constrains
later segmentations.  Engine calls that can fail internally (a C++
exception reaching the shim) return `Except String`. -/
structure EngineBehavior where
  loadStatus : UTF8Str → Status
  setVocabStatus : List UTF8Str → Status
  encode : Option (List UTF8Str) → UTF8Str → Except String (List Int)
  isUnknown : Int → Except String Bool
  idToPiece : Int → Except String UTF8Str

/-- The state of one `SentencePieceInterop` object: the engine behaviour of
its `m_processor`, plus the restricted vocabulary installed by the
constructor (`none` means the full trained vocabulary is in effect). -/
structure SentencePieceInterop where
  behavior : EngineBehavior
  vocabulary : Option (List UTF8Str)

/-- `check_status`: throws (returns `.error`) when the engine status is not
ok, as in the source method of the same name. -/
def check_status (status : Status) (what : String) : Except String Unit :=
  if status.ok then .ok () else .error ("SentencePiece error " ++ what)

/-- The `SentencePieceInterop` constructor: loads the model (recording the
load status of the engine), implants the restricted vocabulary when a non-null,
non-empty vocabulary list is given — note that the status returned by the
returned by `SetVocabulary` is discarded by the source — and only then checks
the load status, throwing on failure.  The `vocab` argument models the C
pair `(const uint16_t** vocab, size_t vocabSize)`: `none` is a null
pointer, `some vs` a non-null pointer to `vocabSize = vs.length` strings. -/
def SentencePieceInterop.construct (B : EngineBehavior) (modelPath : UTF16Str)
    (vocab : Option (List UTF16Str)) : Except String SentencePieceInterop :=
  let status := B.loadStatus (utf16_to_utf8 modelPath)
  let vocabulary : Option (List UTF8Str) :=
    match vocab with
    | some vs =>
      if vs.length > 0 then
        let vocab_str := vs.map utf16_to_utf8
        let _ := B.setVocabStatus vocab_str
        some vocab_str
      else none
    | none => none
  match check_status status "loading" with
  | .ok _ => .ok { behavior := B, vocabulary := vocabulary }
  | .error e => .error e

/-- The method `SentencePieceInterop::EncodeAsIds`: converts the word to
UTF-8, asks the engine for the segmentation, and either reports capacity
overflow as the negated required length without touching the buffer, or
copies the ids into the first slots of the buffer and returns the count.
The buffer of the caller is modelled as a list; a successful call returns the
count together with the buffer contents after the `std::copy`. -/
def SentencePieceInterop.EncodeAsIds (self : SentencePieceInterop) (word : UTF16Str)
    (pieceIdBuffer : List Int) (pieceIdBufferSize : Nat) :
    Except String (Int × List Int) :=
  let wordInUtf8 := utf16_to_utf8 word
  match self.behavior.encode self.vocabulary wordInUtf8 with
  | .error e => .error e
  | .ok piece_ids =>
    if piece_ids.length > pieceIdBufferSize then
      .ok (-(int32OfNat piece_ids.length), pieceIdBuffer)
    else
      .ok (int32OfNat piece_ids.length, piece_ids ++ pieceIdBuffer.drop piece_ids.length)

/-- The method `SentencePieceInterop::UCS2LengthOfPieceId`: `-1` for an id
the engine classifies as unknown, otherwise the UTF-16 code-unit count of
the piece text of the engine. -/
def SentencePieceInterop.UCS2LengthOfPieceId (self : SentencePieceInterop)
    (pieceId : Int) : Except String Int :=
  match self.behavior.isUnknown pieceId with
  | .error e => .error e
  | .ok true => .ok (-1)
  | .ok false =>
    match self.behavior.idToPiece pieceId with
    | .error e => .error e
    | .ok utf8 => .ok (int32OfNat (count_utf8_to_utf16 utf8))

/-- The process heap of live interop objects.  A handle is a reinterpreted
pointer; here slot `i` of the heap backs handle `i + 1`, and `0` is the
null handle. -/
structure Heap where
  slots : List (Option SentencePieceInterop)

/-- Whether an `Except` computation ended in a thrown exception. -/
def exceptIsError {ε α : Type} : Except ε α → Bool
  | .error _ => true
  | .ok _ => false

/-- Exported `LoadModel`: `new SentencePieceInterop(...)` inside
`try`/`catch`; a thrown construction error becomes the null handle `0`,
success allocates a fresh (hence non-zero) handle. -/
def LoadModel (B : EngineBehavior) (heap : Heap) (modelPath : UTF16Str)
    (vocab : Option (List UTF16Str)) : Nat × Heap :=
  match SentencePieceInterop.construct B modelPath vocab with
  | .ok sp => (heap.slots.length + 1, { slots := heap.slots ++ [some sp] })
  | .error _ => (0, heap)

/-- Exported `EncodeAsIds`: the method call inside `try`/`catch`; a thrown
error becomes `-1` with the buffer untouched (every throwing step of the
method happens before the buffer is written).  The `sp` argument stands for
the object a valid handle dereferences to; an invalid handle is undefined
behaviour in the source and is not modelled. -/
def EncodeAsIds (sp : SentencePieceInterop) (word : UTF16Str)
    (pieceIdBuffer : List Int) (pieceIdBufferSize : Nat) : Int × List Int :=
  match SentencePieceInterop.EncodeAsIds sp word pieceIdBuffer pieceIdBufferSize with
  | .ok r => r
  | .error _ => (-1, pieceIdBuffer)

/-- Exported `UCS2LengthOfPieceId`: the method call inside `try`/`catch`; a
thrown error becomes `0` ("0 is an invalid length"). -/
def UCS2LengthOfPieceId (sp : SentencePieceInterop) (pieceId : Int) : Int :=
  match SentencePieceInterop.UCS2LengthOfPieceId sp pieceId with
  | .ok n => n
  | .error _ => 0

/-- Exported `UnloadModel`: `delete` of the object behind the handle.  The
destructor cannot throw (C++ destructors are noexcept), so the function is
total; deleting the null handle is a no-op, as `delete nullptr` is. -/
def UnloadModel (heap : Heap) (handle : Nat) : Heap :=
  if handle = 0 then heap else { slots := heap.slots.set (handle - 1) none }

theorem int32OfNat_of_lt {n : Nat} (h : n < 2 ^ 31) : int32OfNat n = (n : Int) := by
  have h32 : n % 2 ^ 32 = n := Nat.mod_eq_of_lt (lt_trans h (by norm_num))
  unfold int32OfNat
  rw [h32, if_pos h]

/-!
Concrete engine behaviours used as witnesses.  `testBehavior` is a small
deterministic engine: it segments a UTF-8 word into one piece per byte
(piece id = byte value), knows every non-negative id, and maps every known
id to the one-character piece "A".  `failingBehavior` fails every call, and
`rejectingBehavior` loads fine but rejects every vocabulary.
-/

/-- A small concrete engine for witnesses. -/
def testBehavior : EngineBehavior where
  loadStatus := fun _ => { ok := true }
  setVocabStatus := fun _ => { ok := true }
  encode := fun _ w => .ok (w.map Int.ofNat)
  isUnknown := fun i => .ok (decide (i < 0))
  idToPiece := fun _ => .ok [65]

/-- An engine whose every call fails internally. -/
def failingBehavior : EngineBehavior where
  loadStatus := fun _ => { ok := false }
  setVocabStatus := fun _ => { ok := false }
  encode := fun _ _ => .error "internal failure"
  isUnknown := fun _ => .error "internal failure"
  idToPiece := fun _ => .error "internal failure"

/-- An engine that loads models fine but rejects every vocabulary. -/
def rejectingBehavior : EngineBehavior where
  loadStatus := fun _ => { ok := true }
  setVocabStatus := fun _ => { ok := false }
  encode := fun _ _ => .ok []
  isUnknown := fun _ => .ok false
  idToPiece := fun _ => .ok [65]

/-- An engine that always segments into exactly one piece. -/
def onePieceBehavior : EngineBehavior where
  loadStatus := fun _ => { ok := true }
  setVocabStatus := fun _ => { ok := true }
  encode := fun _ _ => .ok [7]
  isUnknown := fun _ => .ok false
  idToPiece := fun _ => .ok [65]

/-- C1: when the segmentation by the engine has length `n` exceeding the buffer
capacity `c`, `EncodeAsIds` (the method, and hence the exported entry point,
which merely forwards the non-throwing result) returns the negated required
length `-n` and leaves the buffer of the caller unmodified.  The representability
bound `n < 2^31` reflects the C cast `(int)piece_ids.size()`. -/
theorem spec_C1_capacity_overflow_negated_length (sp : SentencePieceInterop)
    (word : UTF16Str) (buf : List Int) (cap : Nat) (ids : List Int)
    (henc : sp.behavior.encode sp.vocabulary (utf16_to_utf8 word) = .ok ids)
    (hover : cap < ids.length) (hrep : ids.length < 2 ^ 31) :
    SentencePieceInterop.EncodeAsIds sp word buf cap = .ok (-(ids.length : Int), buf) ∧
    EncodeAsIds sp word buf cap = (-(ids.length : Int), buf) := by
  have hmethod : SentencePieceInterop.EncodeAsIds sp word buf cap
      = .ok (-(ids.length : Int), buf) := by
    simp only [SentencePieceInterop.EncodeAsIds, henc, gt_iff_lt, if_pos hover,
      int32OfNat_of_lt hrep]
  refine ⟨hmethod, ?_⟩
  unfold EncodeAsIds
  rw [hmethod]

theorem spec_C1_witness :
    ((⟨testBehavior, none⟩ : SentencePieceInterop).behavior.encode
        (⟨testBehavior, none⟩ : SentencePieceInterop).vocabulary
        (utf16_to_utf8 [65, 66]) = .ok [65, 66]) ∧
    (0 : Nat) < ([65, 66] : List Int).length ∧
    ([65, 66] : List Int).length < 2 ^ 31 ∧
    EncodeAsIds ⟨testBehavior, none⟩ [65, 66] [9, 9] 0 = (-2, [9, 9]) := by
  refine ⟨rfl, by decide, by decide, ?_⟩
  have h := spec_C1_capacity_overflow_negated_length ⟨testBehavior, none⟩
    [65, 66] [9, 9] 0 [65, 66] rfl (by decide) (by decide)
  exact h.2

/-- C2: when the segmentation by the engine has length `n` within the buffer
capacity, `EncodeAsIds` returns exactly `n` and the first `n` slots of the
buffer hold the segmentation in order (the remaining slots keep their old
contents). -/
theorem spec_C2_success_writes_segmentation (sp : SentencePieceInterop)
    (word : UTF16Str) (buf : List Int) (cap : Nat) (ids : List Int)
    (henc : sp.behavior.encode sp.vocabulary (utf16_to_utf8 word) = .ok ids)
    (hfits : ids.length ≤ cap) (hrep : ids.length < 2 ^ 31) :
    (EncodeAsIds sp word buf cap).1 = (ids.length : Int) ∧
    (EncodeAsIds sp word buf cap).2.take ids.length = ids ∧
    (EncodeAsIds sp word buf cap).2.drop ids.length = buf.drop ids.length := by
  have hmethod : SentencePieceInterop.EncodeAsIds sp word buf cap
      = .ok ((ids.length : Int), ids ++ buf.drop ids.length) := by
    simp only [SentencePieceInterop.EncodeAsIds, henc, gt_iff_lt,
      if_neg (Nat.not_lt.mpr hfits), int32OfNat_of_lt hrep]
  have hexp : EncodeAsIds sp word buf cap = ((ids.length : Int), ids ++ buf.drop ids.length) := by
    unfold EncodeAsIds
    rw [hmethod]
  rw [hexp]
  refine ⟨rfl, ?_, ?_⟩
  · exact List.take_left ids (buf.drop ids.length)
  · exact List.drop_left ids (buf.drop ids.length)

theorem spec_C2_witness :
    ((⟨testBehavior, none⟩ : SentencePieceInterop).behavior.encode
        (⟨testBehavior, none⟩ : SentencePieceInterop).vocabulary
        (utf16_to_utf8 [65, 66]) = .ok [65, 66]) ∧
    ([65, 66] : List Int).length ≤ 4 ∧
    (EncodeAsIds ⟨testBehavior, none⟩ [65, 66] [9, 9, 9, 9] 4).1 = 2 ∧
    (EncodeAsIds ⟨testBehavior, none⟩ [65, 66] [9, 9, 9, 9] 4).2.take 2 = [65, 66] := by
  have h := spec_C2_success_writes_segmentation ⟨testBehavior, none⟩
    [65, 66] [9, 9, 9, 9] 4 [65, 66] rfl (by decide) (by decide)
  exact ⟨rfl, by decide, h.1, h.2.1⟩

/-- C3: `LoadModel` returns a non-zero handle exactly when construction
succeeds: a thrown load error yields the null handle `0`, a successful
construction yields the freshly allocated handle `|slots| + 1 > 0`. -/
theorem spec_C3_load_handle_iff_success (B : EngineBehavior) (heap : Heap)
    (modelPath : UTF16Str) (vocab : Option (List UTF16Str)) :
    ((LoadModel B heap modelPath vocab).1 ≠ 0 ↔
      exceptIsError (SentencePieceInterop.construct B modelPath vocab) = false) := by
  unfold LoadModel
  cases h : SentencePieceInterop.construct B modelPath vocab with
  | ok sp => simp [exceptIsError]
  | error e => simp [exceptIsError]

theorem spec_C3_witness :
    exceptIsError (SentencePieceInterop.construct testBehavior [] none) = false ∧
    (LoadModel testBehavior ⟨[]⟩ [] none).1 ≠ 0 ∧
    exceptIsError (SentencePieceInterop.construct failingBehavior [] none) = true ∧
    (LoadModel failingBehavior ⟨[]⟩ [] none).1 = 0 := by
  refine ⟨rfl, ?_, rfl, rfl⟩
  exact (spec_C3_load_handle_iff_success testBehavior ⟨[]⟩ [] none).mpr rfl

/-- C4: every exported entry point is a total function on its native return
type, and a failure thrown inside the call becomes the
sentinel: the null handle for `LoadModel`, `-1` with the buffer untouched
for `EncodeAsIds`, `0` for `UCS2LengthOfPieceId`; `UnloadModel` returns
normally on every handle (the destructor cannot throw), so no exception
crosses the ABI boundary from any of the four. -/
theorem spec_C4_boundary_catches_all_failures (B : EngineBehavior) (heap : Heap)
    (modelPath : UTF16Str) (vocab : Option (List UTF16Str))
    (sp : SentencePieceInterop) (word : UTF16Str) (buf : List Int) (cap : Nat)
    (pieceId : Int) (handle : Nat) :
    (exceptIsError (SentencePieceInterop.construct B modelPath vocab) = true →
      LoadModel B heap modelPath vocab = (0, heap)) ∧
    (exceptIsError (SentencePieceInterop.EncodeAsIds sp word buf cap) = true →
      EncodeAsIds sp word buf cap = (-1, buf)) ∧
    (exceptIsError (SentencePieceInterop.UCS2LengthOfPieceId sp pieceId) = true →
      UCS2LengthOfPieceId sp pieceId = 0) ∧
    (UnloadModel heap handle =
      if handle = 0 then heap else { slots := heap.slots.set (handle - 1) none }) := by
  refine ⟨?_, ?_, ?_, rfl⟩
  · intro h
    unfold LoadModel
    cases hc : SentencePieceInterop.construct B modelPath vocab with
    | ok sp2 => rw [hc] at h; simp [exceptIsError] at h
    | error e => rfl
  · intro h
    unfold EncodeAsIds
    cases hc : SentencePieceInterop.EncodeAsIds sp word buf cap with
    | ok r => rw [hc] at h; simp [exceptIsError] at h
    | error e => rfl
  · intro h
    unfold UCS2LengthOfPieceId
    cases hc : SentencePieceInterop.UCS2LengthOfPieceId sp pieceId with
    | ok n => rw [hc] at h; simp [exceptIsError] at h
    | error e => rfl

theorem spec_C4_witness :
    exceptIsError (SentencePieceInterop.construct failingBehavior [] none) = true ∧
    LoadModel failingBehavior ⟨[]⟩ [] none = (0, ⟨[]⟩) ∧
    exceptIsError
      (SentencePieceInterop.EncodeAsIds ⟨failingBehavior, none⟩ [65] [3] 1) = true ∧
    EncodeAsIds ⟨failingBehavior, none⟩ [65] [3] 1 = (-1, [3]) ∧
    exceptIsError
      (SentencePieceInterop.UCS2LengthOfPieceId ⟨failingBehavior, none⟩ 0) = true ∧
    UCS2LengthOfPieceId ⟨failingBehavior, none⟩ 0 = 0 ∧
    UnloadModel ⟨[none]⟩ 1 = ⟨[none]⟩ :=
  ⟨rfl,
   (spec_C4_boundary_catches_all_failures failingBehavior ⟨[]⟩ [] none
      ⟨failingBehavior, none⟩ [65] [3] 1 0 1).1 rfl,
   rfl,
   (spec_C4_boundary_catches_all_failures failingBehavior ⟨[]⟩ [] none
      ⟨failingBehavior, none⟩ [65] [3] 1 0 1).2.1 rfl,
   rfl,
   (spec_C4_boundary_catches_all_failures failingBehavior ⟨[]⟩ [] none
      ⟨failingBehavior, none⟩ [65] [3] 1 0 1).2.2.1 rfl,
   rfl⟩

/-- C5: the method `UCS2LengthOfPieceId` returns `-1` exactly when the
engine classifies the id as unknown, and for a known id it returns the
UTF-16 code-unit count of the `IdToPiece` text of the engine.  The hypotheses
record that the engine query itself succeeds, and that the count fits the
C `(int)` cast of the source. -/
theorem spec_C5_ucs2_length_query (sp : SentencePieceInterop) (pieceId : Int)
    (u : Bool) (s : UTF8Str)
    (hu : sp.behavior.isUnknown pieceId = .ok u)
    (hs : u = false → sp.behavior.idToPiece pieceId = .ok s ∧
      count_utf8_to_utf16 s < 2 ^ 31) :
    (SentencePieceInterop.UCS2LengthOfPieceId sp pieceId = .ok (-1) ↔ u = true) ∧
    (u = false → SentencePieceInterop.UCS2LengthOfPieceId sp pieceId
      = .ok ((count_utf8_to_utf16 s : Nat) : Int)) := by
  unfold SentencePieceInterop.UCS2LengthOfPieceId
  cases u with
  | true =>
    rw [hu]
    exact ⟨by simp, by simp⟩
  | false =>
    obtain ⟨hp, hlt⟩ := hs rfl
    simp only [hu, hp, int32OfNat_of_lt hlt]
    constructor
    · constructor
      · intro h
        have h2 := Except.ok.inj h
        exfalso
        omega
      · intro h
        exact absurd h (by simp)
    · intro _
      trivial

theorem spec_C5_witness :
    ((⟨testBehavior, none⟩ : SentencePieceInterop).behavior.isUnknown 7
      = .ok false) ∧
    ((⟨testBehavior, none⟩ : SentencePieceInterop).behavior.idToPiece 7
      = .ok [65]) ∧
    count_utf8_to_utf16 [65] = 1 ∧
    ¬ (SentencePieceInterop.UCS2LengthOfPieceId ⟨testBehavior, none⟩ 7 = .ok (-1)) ∧
    SentencePieceInterop.UCS2LengthOfPieceId ⟨testBehavior, none⟩ 7 = .ok 1 := by
  have h := spec_C5_ucs2_length_query ⟨testBehavior, none⟩ 7 false [65]
    rfl (fun _ => ⟨rfl, by decide⟩)
  refine ⟨rfl, rfl, by decide, ?_, ?_⟩
  · intro hcontra
    exact Bool.false_ne_true (h.1.mp hcontra)
  · exact h.2 rfl

/-- C7: the exported `UCS2LengthOfPieceId` returns `0` exactly when the
query throws internally, provided the engine satisfies the invariant the
spec relies on — every known piece has a text of positive (and
`int`-representable) UTF-16 length — so `0` cannot collide with `-1`
(unknown id) or a genuine positive length. -/
theorem spec_C7_zero_iff_internal_failure (sp : SentencePieceInterop) (pieceId : Int)
    (hpieces : ∀ s : UTF8Str, sp.behavior.isUnknown pieceId = .ok false →
      sp.behavior.idToPiece pieceId = .ok s →
      0 < count_utf8_to_utf16 s ∧ count_utf8_to_utf16 s < 2 ^ 31) :
    (UCS2LengthOfPieceId sp pieceId = 0 ↔
      exceptIsError (SentencePieceInterop.UCS2LengthOfPieceId sp pieceId) = true) := by
  unfold UCS2LengthOfPieceId SentencePieceInterop.UCS2LengthOfPieceId
  cases hu : sp.behavior.isUnknown pieceId with
  | error e => simp [exceptIsError]
  | ok u =>
    cases u with
    | true => simp [exceptIsError]
    | false =>
      cases hp : sp.behavior.idToPiece pieceId with
      | error e => simp [exceptIsError]
      | ok s =>
        obtain ⟨hpos, hlt⟩ := hpieces s hu hp
        simp only [int32OfNat_of_lt hlt, exceptIsError]
        constructor
        · intro h
          exfalso
          omega
        · intro h
          exact absurd h (by simp)

theorem spec_C7_witness :
    ((⟨testBehavior, none⟩ : SentencePieceInterop).behavior.idToPiece 7
      = .ok [65]) ∧
    (0 : Nat) < count_utf8_to_utf16 [65] ∧
    (UCS2LengthOfPieceId ⟨testBehavior, none⟩ 7 = 0 ↔
      exceptIsError
        (SentencePieceInterop.UCS2LengthOfPieceId ⟨testBehavior, none⟩ 7) = true) :=
  ⟨rfl, by decide,
   spec_C7_zero_iff_internal_failure ⟨testBehavior, none⟩ 7
     (fun s _ h2 => by
       have hs : s = [65] := (Except.ok.inj h2).symm
       rw [hs]
       exact ⟨by decide, by decide⟩)⟩

/-- C8: a successful construction installs exactly the supplied vocabulary
(converted entry-wise to UTF-8, in order) when the vocabulary pointer is
non-null with a positive count, and leaves the engine
untouched when the pointer is null or the count is zero. -/
theorem spec_C8_vocabulary_installation (B : EngineBehavior) (modelPath : UTF16Str)
    (vocab : Option (List UTF16Str)) (sp : SentencePieceInterop)
    (h : SentencePieceInterop.construct B modelPath vocab = .ok sp) :
    (∀ vs : List UTF16Str, vocab = some vs → vs.length > 0 →
      sp.vocabulary = some (vs.map utf16_to_utf8)) ∧
    (vocab = none → sp.vocabulary = none) ∧
    (vocab = some [] → sp.vocabulary = none) := by
  unfold SentencePieceInterop.construct check_status at h
  by_cases hok : (B.loadStatus (utf16_to_utf8 modelPath)).ok
  · simp only [hok, if_pos] at h
    have hsp := (Except.ok.inj h).symm
    refine ⟨?_, ?_, ?_⟩
    · intro vs hvs hpos
      rw [hsp, hvs]
      simp [hpos]
    · intro hvs
      rw [hsp, hvs]
    · intro hvs
      rw [hsp, hvs]
      simp
  · simp only [hok, if_neg, Bool.false_eq_true, if_false] at h
    exact absurd h (by simp)

theorem spec_C8_witness :
    SentencePieceInterop.construct testBehavior [] (some [[72]])
      = .ok ⟨testBehavior, some [[72]]⟩ ∧
    (⟨testBehavior, some [[72]]⟩ : SentencePieceInterop).vocabulary = some [[72]] ∧
    SentencePieceInterop.construct testBehavior [] none
      = .ok ⟨testBehavior, none⟩ ∧
    (⟨testBehavior, none⟩ : SentencePieceInterop).vocabulary = none :=
  ⟨rfl,
   (spec_C8_vocabulary_installation testBehavior [] (some [[72]])
      ⟨testBehavior, some [[72]]⟩ rfl).1 [[72]] rfl (by decide),
   rfl,
   (spec_C8_vocabulary_installation testBehavior [] none
      ⟨testBehavior, none⟩ rfl).2.1 rfl⟩

/-- C9: `EncodeAsIds` is deterministic — with the same object, the same
text and a sufficient capacity, two calls (here on two arbitrary initial
buffers) return the same count and write the same piece-id sequence. -/
theorem spec_C9_encode_deterministic (sp : SentencePieceInterop) (word : UTF16Str)
    (b1 b2 : List Int) (cap : Nat) (ids : List Int)
    (henc : sp.behavior.encode sp.vocabulary (utf16_to_utf8 word) = .ok ids)
    (hfits : ids.length ≤ cap) :
    (EncodeAsIds sp word b1 cap).1 = (EncodeAsIds sp word b2 cap).1 ∧
    (EncodeAsIds sp word b1 cap).2.take ids.length
      = (EncodeAsIds sp word b2 cap).2.take ids.length := by
  have key : ∀ b : List Int, EncodeAsIds sp word b cap
      = (int32OfNat ids.length, ids ++ b.drop ids.length) := by
    intro b
    unfold EncodeAsIds
    simp only [SentencePieceInterop.EncodeAsIds, henc, gt_iff_lt,
      if_neg (Nat.not_lt.mpr hfits)]
  rw [key b1, key b2]
  refine ⟨rfl, ?_⟩
  rw [List.take_left ids (b1.drop ids.length), List.take_left ids (b2.drop ids.length)]

theorem spec_C9_witness :
    ((⟨testBehavior, none⟩ : SentencePieceInterop).behavior.encode
        (⟨testBehavior, none⟩ : SentencePieceInterop).vocabulary
        (utf16_to_utf8 [65]) = .ok [65]) ∧
    ([65] : List Int).length ≤ 2 ∧
    (EncodeAsIds ⟨testBehavior, none⟩ [65] [1, 2] 2).1
      = (EncodeAsIds ⟨testBehavior, none⟩ [65] [3, 4] 2).1 ∧
    (EncodeAsIds ⟨testBehavior, none⟩ [65] [1, 2] 2).2.take 1
      = (EncodeAsIds ⟨testBehavior, none⟩ [65] [3, 4] 2).2.take 1 := by
  have h := spec_C9_encode_deterministic ⟨testBehavior, none⟩ [65] [1, 2] [3, 4] 2
    [65] rfl (by decide)
  exact ⟨rfl, by decide, h.1, h.2⟩

/-- C10: the exported failure sentinel of `EncodeAsIds` is ambiguous.  A
one-piece segmentation offered a zero-capacity buffer yields the negated
required length `-1`, and an internal failure yields the generic sentinel
`-1` as well, so the two outcomes are indistinguishable to the caller. -/
theorem spec_C10_sentinel_ambiguity :
    (onePieceBehavior.encode none (utf16_to_utf8 [65]) = .ok [7]) ∧
    (EncodeAsIds ⟨onePieceBehavior, none⟩ [65] [] 0).1 = -1 ∧
    exceptIsError
      (SentencePieceInterop.EncodeAsIds ⟨failingBehavior, none⟩ [65] [] 0) = true ∧
    (EncodeAsIds ⟨failingBehavior, none⟩ [65] [] 0).1 = -1 ∧
    (EncodeAsIds ⟨onePieceBehavior, none⟩ [65] [] 0).1
      = (EncodeAsIds ⟨failingBehavior, none⟩ [65] [] 0).1 :=
  ⟨rfl, rfl, rfl, rfl, rfl⟩

/-- C6 counterexample: an engine that loads the model fine but rejects the
supplied non-empty vocabulary (`SetVocabulary` status not ok).  The source
constructor discards the `SetVocabulary` status, so `LoadModel` still
returns the non-zero handle `1` — the claim "a malformed restricted
vocabulary is a load failure" is false on the code. -/
theorem spec_C6_counterexample :
    (rejectingBehavior.setVocabStatus ([[72]].map utf16_to_utf8)).ok = false ∧
    ([[72]] : List UTF16Str).length > 0 ∧
    (rejectingBehavior.loadStatus (utf16_to_utf8 [])).ok = true ∧
    (LoadModel rejectingBehavior ⟨[]⟩ [] (some [[72]])).1 = 1 ∧
    ¬ ((LoadModel rejectingBehavior ⟨[]⟩ [] (some [[72]])).1 = 0) := by
  refine ⟨rfl, by decide, rfl, rfl, ?_⟩
  intro h
  exact absurd ((rfl : (LoadModel rejectingBehavior ⟨[]⟩ [] (some [[72]])).1 = 1) ▸ h)
    (by decide)

/-- C6 amended: the constructor discards the `SetVocabulary`
status of the engine, so a vocabulary the engine rejects as malformed is NOT a load
failure: whenever the model itself loads successfully, `LoadModel` returns
a non-zero handle even though the supplied non-empty vocabulary was
rejected (the rejected vocabulary is still installed on the object). -/
theorem spec_C6_amended_vocab_rejection_ignored (B : EngineBehavior) (heap : Heap)
    (modelPath : UTF16Str) (vs : List UTF16Str)
    (hload : (B.loadStatus (utf16_to_utf8 modelPath)).ok = true)
    (hne : vs.length > 0)
    ( _hrej : (B.setVocabStatus (vs.map utf16_to_utf8)).ok = false) :
    (LoadModel B heap modelPath (some vs)).1 = heap.slots.length + 1 ∧
    (LoadModel B heap modelPath (some vs)).1 ≠ 0 := by
  have hcon : SentencePieceInterop.construct B modelPath (some vs)
      = .ok ⟨B, some (vs.map utf16_to_utf8)⟩ := by
    unfold SentencePieceInterop.construct check_status
    simp [hload, hne]
  unfold LoadModel
  simp only [hcon]
  exact ⟨trivial, by omega⟩

theorem spec_C6_amended_witness :
    ((rejectingBehavior.loadStatus (utf16_to_utf8 [])).ok = true) ∧
    (([[72]] : List UTF16Str).length > 0) ∧
    ((rejectingBehavior.setVocabStatus ([[72]].map utf16_to_utf8)).ok = false) ∧
    (LoadModel rejectingBehavior ⟨[]⟩ [] (some [[72]])).1 = 1 ∧
    (LoadModel rejectingBehavior ⟨[]⟩ [] (some [[72]])).1 ≠ 0 := by
  have h := spec_C6_amended_vocab_rejection_ignored rejectingBehavior ⟨[]⟩ [] [[72]]
    rfl (by decide) rfl
  exact ⟨rfl, by decide, rfl, h.1, h.2⟩
